import Mathlib

/-!
# Verification of the live-session core of AI-CODEX (src/App.tsx)

This file shallowly embeds the live-session logic of `src/App.tsx` and
settles the spec's claims about it.

* Playback scheduling (`handleMessage`, lines 60-69): the playback cursor
  `nextStartTimeRef` and the pending-source set `sourcesRef`.
* Transcript aggregation (`handleMessage`, lines 72-77).
* Tool-call dispatch and completion (`handleMessage`, lines 79-115).
* `startSession` (lines 118-160) and `stopSession` (lines 162-168).

Times and durations are modelled as rationals (the AudioContext clock is a
real-valued clock; every operation performed on it here is order/plus/max
arithmetic, which ℚ captures exactly and executably).
-/

/-- JavaScript's string `a || b` idiom as used in App.tsx
(`text || ''` on line 73/76, `response.text || '// Synthesis failed'`
on line 93): an absent (`undefined`) or empty string falls back to the
default. -/
def jsOr (s : Option String) (dflt : String) : String :=
  match s with
  | some t => if t = "" then dflt else t
  | none => dflt

/-! ## Playback scheduler (App.tsx lines 60-69)

On each inbound audio chunk the handler runs
`nextStartTime = max(nextStartTime, ctx.currentTime)`,
`source.start(nextStartTime)`, `nextStartTime += buffer.duration`.
`scheduledPairs` iterates exactly that update over a list of buffers,
each given as `(arrival time now, duration D)`, returning the list of
`(scheduled start, duration)` pairs in arrival order. -/

/-- Iterated scheduling step of App.tsx lines 62-68: for each buffer
`(now, D)`, the start time is `max nextStartTime now` and the cursor
advances to that start plus `D`. -/
def scheduledPairs (next0 : ℚ) : List (ℚ × ℚ) → List (ℚ × ℚ)
  | [] => []
  | b :: rest => (max next0 b.1, b.2) :: scheduledPairs (max next0 b.1 + b.2) rest

/-- The head of a schedule never starts before the incoming cursor value. -/
theorem scheduledPairs_head_start_ge (next0 : ℚ) (bufs : List (ℚ × ℚ)) :
    ∀ p ∈ (scheduledPairs next0 bufs).head?, next0 ≤ p.1 := by
  cases bufs with
  | nil => intro p hp; simp [scheduledPairs] at hp
  | cons b rest =>
    intro p hp
    simp only [scheduledPairs, List.head?_cons, Option.mem_def, Option.some.injEq] at hp
    rw [← hp]
    exact le_max_left _ _

/-- Back-pressure predicate of the spec: every buffer arrives no later
than the cursor value current at its arrival (`now ≤ nextStartTime`),
the cursor advancing by the buffer's duration each step. -/
def backPressured (next0 : ℚ) : List (ℚ × ℚ) → Bool
  | [] => true
  | b :: rest => decide (b.1 ≤ next0) && backPressured (next0 + b.2) rest

/-- Under back-pressure the head of the schedule starts exactly at the
incoming cursor value. -/
theorem backPressured_head_start_eq (next0 : ℚ) (bufs : List (ℚ × ℚ))
    (h : backPressured next0 bufs = true) :
    ∀ p ∈ (scheduledPairs next0 bufs).head?, p.1 = next0 := by
  cases bufs with
  | nil => intro p hp; simp [scheduledPairs] at hp
  | cons b rest =>
    intro p hp
    simp only [backPressured, Bool.and_eq_true, decide_eq_true_eq] at h
    simp only [scheduledPairs, List.head?_cons, Option.mem_def, Option.some.injEq] at hp
    rw [← hp]
    exact max_eq_left h.1

/-- C1. Playback scheduling monotonicity: for any buffer sequence with
nonnegative durations arriving at arbitrary times, each buffer starts at
`max nextStartTime now`, and consecutive scheduled pairs satisfy
`start(i) + D(i) ≤ start(i+1)` (no overlap) and `start(i) ≤ start(i+1)`
(non-decreasing); playback order is arrival order since `scheduledPairs`
preserves the list order. -/
theorem playback_monotone (next0 : ℚ) (bufs : List (ℚ × ℚ))
    (hD : ∀ b ∈ bufs, 0 ≤ b.2) :
    List.Chain' (fun p q : ℚ × ℚ => p.1 + p.2 ≤ q.1 ∧ p.1 ≤ q.1)
      (scheduledPairs next0 bufs) := by
  revert hD
  induction bufs generalizing next0 with
  | nil => intro hD; simp [scheduledPairs]
  | cons b rest ih =>
    intro hD
    rw [scheduledPairs, List.chain'_cons']
    have hb : 0 ≤ b.2 := hD b (List.mem_cons_self b rest)
    constructor
    · intro q hq
      have h1 := scheduledPairs_head_start_ge (max next0 b.1 + b.2) rest q hq
      exact ⟨h1, le_trans (le_add_of_nonneg_right hb) h1⟩
    · exact ih (max next0 b.1 + b.2) (fun x hx => hD x (List.mem_cons_of_mem b hx))

/-- Witness for C1 at a concrete input: three buffers with durations
1, 2, 1 arriving at times 0, 3, 7/2. -/
theorem playback_monotone_witness :
    (∀ b ∈ [((0 : ℚ), (1 : ℚ)), (3, 2), (7/2, 1)], 0 ≤ b.2) ∧
    List.Chain' (fun p q : ℚ × ℚ => p.1 + p.2 ≤ q.1 ∧ p.1 ≤ q.1)
      (scheduledPairs 0 [((0 : ℚ), (1 : ℚ)), (3, 2), (7/2, 1)]) :=
  ⟨by norm_num, playback_monotone 0 _ (by norm_num)⟩

/-- C8. Gap-free under back-pressure: if every buffer arrives no later
than the current cursor value, consecutive buffers are scheduled exactly
back-to-back: `start(i+1) = start(i) + D(i)`. -/
theorem gap_free_back_pressured (next0 : ℚ) (bufs : List (ℚ × ℚ))
    (h : backPressured next0 bufs = true) :
    List.Chain' (fun p q : ℚ × ℚ => q.1 = p.1 + p.2)
      (scheduledPairs next0 bufs) := by
  revert h
  induction bufs generalizing next0 with
  | nil => intro h; simp [scheduledPairs]
  | cons b rest ih =>
    intro h
    simp only [backPressured, Bool.and_eq_true, decide_eq_true_eq] at h
    rw [scheduledPairs, List.chain'_cons']
    rw [max_eq_left h.1]
    constructor
    · intro q hq
      exact backPressured_head_start_eq (next0 + b.2) rest h.2 q hq
    · exact ih (next0 + b.2) h.2

/-- Witness for C8 at a concrete input: cursor at 1, three buffers
arriving early at times 0, 1, 2 with durations 2, 3, 1. -/
theorem gap_free_back_pressured_witness :
    backPressured 1 [((0 : ℚ), (2 : ℚ)), (1, 3), (2, 1)] = true ∧
    List.Chain' (fun p q : ℚ × ℚ => q.1 = p.1 + p.2)
      (scheduledPairs 1 [((0 : ℚ), (2 : ℚ)), (1, 3), (2, 1)]) :=
  ⟨by norm_num [backPressured], gap_free_back_pressured 1 _ (by norm_num [backPressured])⟩

/-! ## Session state (App.tsx lines 32-56)

The component state (`useState`, lines 34-48) together with the refs
(lines 50-56) that the live-session logic reads and writes.  Refs that
no modelled operation reads or writes (the input AudioContext, the
script-processor node) are represented only where an operation touches
them observably. -/

/-- One recorded code artifact (`newSnippet`, App.tsx line 94). -/
structure CodeSnippet where
  id : String
  language : String
  code : String
  description : String
  timestamp : ℕ
deriving DecidableEq

/-- One outbound tool-response control message: the payload of
`session.sendToolResponse` (App.tsx lines 106-108), whose single
`functionResponses` entry carries `id: fc.id, name: fc.name,
response: { result: "Compiled." }`. -/
structure ToolResponseMsg where
  id : String
  name : String
  result : String
deriving DecidableEq

/-- The session-relevant state of the App component: `useState` fields
(lines 34-48) plus the mutable refs (lines 50-56).
`sessionOpen` models `sessionPromiseRef.current !== null`,
`outCtxSet` models `outAudioContextRef.current !== null`,
`streamActive` models `streamRef` holding a live (not yet stopped)
media stream, `nextStartTime` models `nextStartTimeRef.current`, and
`sources` models the contents of `sourcesRef.current` (newest first). -/
structure AppModel where
  isListening : Bool
  isProcessing : Bool
  currentCode : String
  currentDescription : String
  history : List CodeSnippet
  error : Option String
  liveUserText : String
  liveAiText : String
  view : String
  sessionOpen : Bool
  outCtxSet : Bool
  streamActive : Bool
  nextStartTime : ℚ
  sources : List ℕ
deriving DecidableEq

/-- The initial component state (App.tsx lines 34-48) and initial ref
values (lines 50-56: null session, `nextStartTimeRef = 0`, empty
source set). -/
def initialState : AppModel :=
  { isListening := false
    isProcessing := false
    currentCode := ""
    currentDescription := ""
    history := []
    error := none
    liveUserText := ""
    liveAiText := ""
    view := "code"
    sessionOpen := false
    outCtxSet := false
    streamActive := false
    nextStartTime := 0
    sources := [] }

/-! ## Session lifecycle (App.tsx lines 118-168) -/

/-- `startSession` (App.tsx lines 118-160).  `deviceOk` is whether
`navigator.mediaDevices.getUserMedia` succeeds (line 120).  On success
the stream, audio contexts and live-session promise are installed and
`isListening` is set with `error: null` (lines 121-156).  On device
denial the catch (lines 157-159) only records the error string.
Note that no branch touches `nextStartTimeRef` or `sourcesRef`. -/
def startSession (st : AppModel) (deviceOk : Bool) : AppModel :=
  if deviceOk then
    { st with streamActive := true
              outCtxSet := true
              sessionOpen := true
              isListening := true
              error := none }
  else
    { st with error := some "Microphone permission denied" }

/-- `stopSession` (App.tsx lines 162-168): disconnects the script
processor, stops the capture tracks, closes both audio contexts and
clears `isListening`.  It does not null `sessionPromiseRef` or
`outAudioContextRef`, and it touches neither `nextStartTimeRef` nor
`sourcesRef`. -/
def stopSession (st : AppModel) : AppModel :=
  { st with streamActive := false
            isListening := false }

/-! ## Inbound audio (App.tsx lines 59-70) -/

/-- The audio branch of `handleMessage` (lines 60-69), for one decoded
buffer of duration `dur` arriving when the output clock reads `now`,
producing a fresh source handle `srcId`: guarded by
`outAudioContextRef.current` being set, it schedules the source at
`max nextStartTime now`, advances the cursor by `dur`, and adds the
handle to the pending set.  Returns the new state and the start time
passed to `source.start` (or `none` when the guard fails). -/
def handleAudio (st : AppModel) (now dur : ℚ) (srcId : ℕ) :
    AppModel × Option ℚ :=
  if st.outCtxSet then
    let startAt := max st.nextStartTime now
    ({ st with nextStartTime := startAt + dur
               sources := srcId :: st.sources }, some startAt)
  else (st, none)

/-! ## Transcripts (App.tsx lines 72-77) -/

/-- The two speaker channels: `inputTranscription` (the local speaker,
stored in `liveUserText`) and `outputTranscription` (the remote
speaker, stored in `liveAiText`). -/
inductive Channel where
  | localSpeaker : Channel
  | remoteSpeaker : Channel
deriving DecidableEq

/-- The other speaker channel. -/
def otherChannel : Channel → Channel
  | Channel.localSpeaker => Channel.remoteSpeaker
  | Channel.remoteSpeaker => Channel.localSpeaker

/-- Reads the stored transcript value of a channel. -/
def getChannel (st : AppModel) : Channel → String
  | Channel.localSpeaker => st.liveUserText
  | Channel.remoteSpeaker => st.liveAiText

/-- One partial-transcript event (App.tsx lines 72-77): the channel's
stored string is replaced by `text || ''`. -/
def applyTranscript (st : AppModel) (ch : Channel) (text : Option String) :
    AppModel :=
  match ch with
  | Channel.localSpeaker => { st with liveUserText := jsOr text "" }
  | Channel.remoteSpeaker => { st with liveAiText := jsOr text "" }

/-- A sequence of partial-transcript events for one channel, applied in
delivery order. -/
def applyTranscripts (st : AppModel) (ch : Channel)
    (ps : List (Option String)) : AppModel :=
  ps.foldl (fun s t => applyTranscript s ch t) st

/-! ## Tool calls (App.tsx lines 79-115)

A `generate_code` invocation is handled in two phases separated by the
`await ai.models.generateContent(...)` of line 87: the dispatch phase
(line 83) runs when the invocation arrives, the completion phase
(lines 93-111) runs when the secondary-endpoint job settles.  The job
outcome is `Except.ok text` (with `text` the possibly-absent
`response.text`) or `Except.error e` for a thrown error. -/

/-- A functionCall entry of `message.toolCall.functionCalls`
(App.tsx lines 80-82): remote-supplied id and name, and the
destructured `args` fields `description` and `language`. -/
structure FunctionCall where
  id : String
  name : String
  description : String
  language : String
deriving DecidableEq

/-- Dispatch phase (App.tsx line 83): mark the session processing and
record the requested description. -/
def dispatchToolCall (st : AppModel) (fc : FunctionCall) : AppModel :=
  { st with isProcessing := true
            currentDescription := fc.description }

/-- Completion phase (App.tsx lines 93-111), run against the state
current when the job settles.  On success: `code = response.text ||
'// Synthesis failed'`, a snippet is prepended to the history which is
truncated to 15 entries, the view switches to the code panel, and —
only if `sessionPromiseRef.current` is set — exactly one tool-response
message `{id: fc.id, name: fc.name, response: {result: "Compiled."}}`
is sent (lines 104-109).  On failure (lines 110-112): no message is
sent, `error` becomes `'Kernel overload'`.  `ts` is the `Date.now()`
value used for the snippet id/timestamp. -/
def completeToolCall (st : AppModel) (fc : FunctionCall)
    (job : Except String (Option String)) (ts : ℕ) :
    AppModel × List ToolResponseMsg :=
  match job with
  | Except.ok text =>
    let code := jsOr text "// Synthesis failed"
    let snip : CodeSnippet :=
      { id := toString ts
        language := fc.language
        code := code
        description := fc.description
        timestamp := ts }
    ({ st with currentCode := code
               isProcessing := false
               history := (snip :: st.history).take 15
               view := "code" },
     if st.sessionOpen then
       [{ id := fc.id, name := fc.name, result := "Compiled." }]
     else [])
  | Except.error _ =>
    ({ st with isProcessing := false
               error := some "Kernel overload" }, [])

/-- The full tool-call handler for one functionCall entry (App.tsx
lines 80-114): only `generate_code` invocations are acted on, and for
those the dispatch and completion phases run with no intervening
state change. -/
def handleToolCall (st : AppModel) (fc : FunctionCall)
    (job : Except String (Option String)) (ts : ℕ) :
    AppModel × List ToolResponseMsg :=
  if fc.name = "generate_code" then
    completeToolCall (dispatchToolCall st fc) fc job ts
  else (st, [])

/-! ## Helper lemmas about the string fallback -/

/-- `t || ''` is always `t` itself. -/
theorem jsOr_some_empty (t : String) : jsOr (some t) "" = t := by
  by_cases h : t = "" <;> simp [jsOr, h]

/-- For nonempty `t`, `t || d` is `t`. -/
theorem jsOr_some_of_ne (t d : String) (h : t ≠ "") : jsOr (some t) d = t := by
  simp [jsOr, h]

/-! ## C5: transcript last-write-wins -/

/-- C5. Transcript last-write-wins: after partial events P1, P2, P3 on
one channel, the stored value for that channel is P3's text (each event
replaces the stored string), and the other channel is unchanged. -/
theorem transcript_last_write_wins (st : AppModel) (ch : Channel)
    (p1 p2 p3 : String) :
    getChannel (applyTranscripts st ch [some p1, some p2, some p3]) ch = p3 ∧
    getChannel (applyTranscripts st ch [some p1, some p2, some p3])
        (otherChannel ch)
      = getChannel st (otherChannel ch) := by
  cases ch <;>
    simp [applyTranscripts, applyTranscript, getChannel, otherChannel,
      jsOr_some_empty]

/-! ## C2: tool round-trip -/

/-- C2 counterexample: for the spec's own example — invocation id "abc",
job text `def rev(s): return s[::-1]` — the single outbound message's
payload is the fixed string "Compiled.", not the produced text, so the
claim that the response carries the produced text T is false. -/
theorem tool_response_payload_counterexample :
    ((handleToolCall (startSession initialState true)
        { id := "abc", name := "generate_code",
          description := "reverse a string", language := "python" }
        (Except.ok (some "def rev(s): return s[::-1]")) 0).2).map
        ToolResponseMsg.result = ["Compiled."] ∧
    "Compiled." ≠ "def rev(s): return s[::-1]" := by
  exact ⟨rfl, by decide⟩

/-- C2 (amended). Tool round-trip: a successful `generate_code` job with
the session reference set produces exactly one outbound tool-response
message, echoing the invocation's id and name verbatim, but carrying the
fixed acknowledgment "Compiled."; the produced text T is stored as the
session's current code, and processing ends (status Completed). -/
theorem tool_round_trip_ack (st : AppModel) (fc : FunctionCall)
    (t : String) (ts : ℕ) (hopen : st.sessionOpen = true)
    (hname : fc.name = "generate_code") (ht : t ≠ "") :
    (handleToolCall st fc (Except.ok (some t)) ts).2 =
      [{ id := fc.id, name := fc.name, result := "Compiled." }] ∧
    (handleToolCall st fc (Except.ok (some t)) ts).1.currentCode = t ∧
    (handleToolCall st fc (Except.ok (some t)) ts).1.isProcessing = false := by
  rw [handleToolCall, if_pos hname]
  refine ⟨?_, ?_, rfl⟩
  · simp [completeToolCall, dispatchToolCall, hopen]
  · simp [completeToolCall, dispatchToolCall, jsOr_some_of_ne _ _ ht]

/-- Witness for C2 at the spec's concrete example. -/
theorem tool_round_trip_ack_witness :
    (startSession initialState true).sessionOpen = true ∧
    ({ id := "abc", name := "generate_code", description := "reverse a string",
       language := "python" } : FunctionCall).name = "generate_code" ∧
    "def rev(s): return s[::-1]" ≠ "" ∧
    ((handleToolCall (startSession initialState true)
        { id := "abc", name := "generate_code",
          description := "reverse a string", language := "python" }
        (Except.ok (some "def rev(s): return s[::-1]")) 0).2 =
      [{ id := "abc", name := "generate_code", result := "Compiled." }] ∧
     (handleToolCall (startSession initialState true)
        { id := "abc", name := "generate_code",
          description := "reverse a string", language := "python" }
        (Except.ok (some "def rev(s): return s[::-1]")) 0).1.currentCode =
       "def rev(s): return s[::-1]" ∧
     (handleToolCall (startSession initialState true)
        { id := "abc", name := "generate_code",
          description := "reverse a string", language := "python" }
        (Except.ok (some "def rev(s): return s[::-1]")) 0).1.isProcessing =
       false) :=
  ⟨rfl, rfl, by decide, tool_round_trip_ack _ _ _ 0 rfl rfl (by decide)⟩

/-! ## C3: orphaned tool result -/

/-- C3 counterexample: dispatch, then `stopSession`, then job success —
the tool response IS sent (the outbound message list is nonempty),
because `stopSession` neither clears `sessionPromiseRef` nor closes the
live session, so the claim that no send is attempted is false. -/
theorem orphaned_result_sent_counterexample :
    (completeToolCall (stopSession (dispatchToolCall
        (startSession initialState true)
        { id := "abc", name := "generate_code",
          description := "reverse a string", language := "python" }))
        { id := "abc", name := "generate_code",
          description := "reverse a string", language := "python" }
        (Except.ok (some "def rev(s): return s[::-1]")) 0).2 =
      [{ id := "abc", name := "generate_code", result := "Compiled." }] ∧
    [({ id := "abc", name := "generate_code", result := "Compiled." } :
        ToolResponseMsg)] ≠ [] := by
  exact ⟨rfl, by decide⟩

/-- C3 (amended). `stopSession` does not clear the session reference (nor
close the live connection), so a job completing after stop still sends
exactly one tool-response message through the retained reference; no
error is raised (the error field is untouched). -/
theorem orphaned_result_still_sent (st : AppModel) (fc : FunctionCall)
    (t : Option String) (ts : ℕ) (hopen : st.sessionOpen = true) :
    (completeToolCall (stopSession (dispatchToolCall st fc)) fc
        (Except.ok t) ts).2 =
      [{ id := fc.id, name := fc.name, result := "Compiled." }] ∧
    (completeToolCall (stopSession (dispatchToolCall st fc)) fc
        (Except.ok t) ts).1.error = st.error := by
  refine ⟨?_, rfl⟩
  simp [completeToolCall, stopSession, dispatchToolCall, hopen]

/-- Witness for C3 at a concrete input (job text absent, so the stored
code falls back to the failure placeholder, yet the ack is still sent). -/
theorem orphaned_result_still_sent_witness :
    (startSession initialState true).sessionOpen = true ∧
    ((completeToolCall (stopSession (dispatchToolCall
        (startSession initialState true)
        { id := "tool-7", name := "generate_code",
          description := "sum two numbers", language := "js" }))
        { id := "tool-7", name := "generate_code",
          description := "sum two numbers", language := "js" }
        (Except.ok none) 5).2 =
      [{ id := "tool-7", name := "generate_code", result := "Compiled." }] ∧
     (completeToolCall (stopSession (dispatchToolCall
        (startSession initialState true)
        { id := "tool-7", name := "generate_code",
          description := "sum two numbers", language := "js" }))
        { id := "tool-7", name := "generate_code",
          description := "sum two numbers", language := "js" }
        (Except.ok none) 5).1.error = (startSession initialState true).error) :=
  ⟨rfl, orphaned_result_still_sent _ _ none 5 rfl⟩

/-! ## C4: exactly one result per accepted invocation -/

/-- C4 counterexample: a secondary-endpoint failure sends NO tool
response at all (the outbound message list is empty, not a single
Failed response); the code records the local error string instead. -/
theorem failed_job_counterexample :
    (handleToolCall (startSession initialState true)
        { id := "xyz", name := "generate_code",
          description := "sort a list", language := "js" }
        (Except.error "HTTP 500") 7).2 = [] ∧
    ((handleToolCall (startSession initialState true)
        { id := "xyz", name := "generate_code",
          description := "sort a list", language := "js" }
        (Except.error "HTTP 500") 7).2).length ≠ 1 ∧
    (handleToolCall (startSession initialState true)
        { id := "xyz", name := "generate_code",
          description := "sort a list", language := "js" }
        (Except.error "HTTP 500") 7).1.error = some "Kernel overload" := by
  exact ⟨rfl, by decide, rfl⟩

/-- C4 (amended). While the session reference is set, a successful job
yields exactly one outbound response; a secondary-endpoint failure
yields no tool response at all — the handler only records the local
error string "Kernel overload" and clears the processing flag. -/
theorem tool_result_delivery (st : AppModel) (fc : FunctionCall)
    (t : Option String) (e : String) (ts : ℕ)
    (hopen : st.sessionOpen = true) (hname : fc.name = "generate_code") :
    ((handleToolCall st fc (Except.ok t) ts).2).length = 1 ∧
    (handleToolCall st fc (Except.error e) ts).2 = [] ∧
    (handleToolCall st fc (Except.error e) ts).1.error =
      some "Kernel overload" ∧
    (handleToolCall st fc (Except.error e) ts).1.isProcessing = false := by
  simp only [handleToolCall, if_pos hname]
  refine ⟨?_, rfl, rfl, rfl⟩
  simp [completeToolCall, dispatchToolCall, hopen]

/-- Witness for C4 at a concrete input. -/
theorem tool_result_delivery_witness :
    (startSession initialState true).sessionOpen = true ∧
    ({ id := "job-1", name := "generate_code", description := "parse a date",
       language := "python" } : FunctionCall).name = "generate_code" ∧
    (((handleToolCall (startSession initialState true)
        { id := "job-1", name := "generate_code",
          description := "parse a date", language := "python" }
        (Except.ok (some "import datetime")) 2).2).length = 1 ∧
     (handleToolCall (startSession initialState true)
        { id := "job-1", name := "generate_code",
          description := "parse a date", language := "python" }
        (Except.error "timeout") 2).2 = [] ∧
     (handleToolCall (startSession initialState true)
        { id := "job-1", name := "generate_code",
          description := "parse a date", language := "python" }
        (Except.error "timeout") 2).1.error = some "Kernel overload" ∧
     (handleToolCall (startSession initialState true)
        { id := "job-1", name := "generate_code",
          description := "parse a date", language := "python" }
        (Except.error "timeout") 2).1.isProcessing = false) :=
  ⟨rfl, rfl, tool_result_delivery _ _ (some "import datetime") "timeout" 2
    rfl rfl⟩

/-! ## C6: scheduler state across sessions -/

/-- C6 counterexample: after a first session schedules a buffer of
duration 5 (cursor advances to 5) and is stopped, starting a second
session leaves the cursor at 5 — not reset to the new session's start
time 0 (a fresh output AudioContext clock starts at 0) — and the second
session's first buffer, arriving at time 0, is scheduled at 5. -/
theorem cursor_not_reset_counterexample :
    (startSession (stopSession
        (handleAudio (startSession initialState true) 0 5 0).1) true).nextStartTime
      = 5 ∧
    (5 : ℚ) ≠ 0 ∧
    (handleAudio (startSession (stopSession
        (handleAudio (startSession initialState true) 0 5 0).1) true) 0 1 1).2
      = some 5 := by
  refine ⟨?_, by norm_num, ?_⟩ <;>
    norm_num [startSession, stopSession, handleAudio, initialState, max_def]

/-- C6 (amended). The playback cursor is initialized to 0 when the
component is created and is NOT reset by `startSession` (nor by
`stopSession`): it retains the value accumulated by the previous
session. -/
theorem cursor_survives_sessions (st : AppModel) (deviceOk : Bool) :
    initialState.nextStartTime = 0 ∧
    (startSession st deviceOk).nextStartTime = st.nextStartTime ∧
    (stopSession st).nextStartTime = st.nextStartTime :=
  ⟨rfl, by cases deviceOk <;> rfl, rfl⟩

/-! ## C7: teardown of pending playback -/

/-- C7 counterexample: with one scheduled source (handle 7) pending,
`stopSession` leaves the pending-source set unchanged and nonempty —
no handle is force-stopped or removed, contradicting the claim that the
set is emptied. -/
theorem pending_set_not_cleared_counterexample :
    (stopSession
        (handleAudio (startSession initialState true) 0 2 7).1).sources = [7] ∧
    (stopSession
        (handleAudio (startSession initialState true) 0 2 7).1).sources ≠ [] := by
  constructor <;> norm_num [startSession, stopSession, handleAudio, initialState]

/-- C7 (amended). `stopSession` leaves the pending-source set unchanged:
it neither calls stop() on any handle nor clears the set; teardown
instead stops the capture stream, closes the audio contexts and clears
the listening flag. -/
theorem stop_leaves_pending_set (st : AppModel) :
    (stopSession st).sources = st.sources ∧
    (stopSession st).isListening = false ∧
    (stopSession st).streamActive = false :=
  ⟨rfl, rfl, rfl⟩

/-! ## C9: device-denial path -/

/-- C9. Device-denial path: starting from an idle state, if capture
acquisition fails then the session records the retained error reason,
never becomes listening, never installs a live-session promise, and
leaves the capture stream inactive — no audio send path is opened. -/
theorem device_denied_errored (st : AppModel)
    (h1 : st.isListening = false) (h2 : st.sessionOpen = false)
    (h3 : st.streamActive = false) :
    (startSession st false).error = some "Microphone permission denied" ∧
    (startSession st false).isListening = false ∧
    (startSession st false).sessionOpen = false ∧
    (startSession st false).streamActive = false :=
  ⟨rfl, h1, h2, h3⟩

/-- Witness for C9 from the initial idle state. -/
theorem device_denied_errored_witness :
    initialState.isListening = false ∧
    initialState.sessionOpen = false ∧
    initialState.streamActive = false ∧
    ((startSession initialState false).error =
        some "Microphone permission denied" ∧
     (startSession initialState false).isListening = false ∧
     (startSession initialState false).sessionOpen = false ∧
     (startSession initialState false).streamActive = false) :=
  ⟨rfl, rfl, rfl, device_denied_errored initialState rfl rfl rfl⟩

/-! ## C10: bounded history -/

/-- C10. Bounded history: after a tool-generated snippet is recorded the
history holds at most 15 entries, the new snippet is first, and only
the first 14 previous entries are kept (older ones are discarded). -/
theorem history_bounded (st : AppModel) (fc : FunctionCall)
    (t : Option String) (ts : ℕ) (hname : fc.name = "generate_code") :
    ((handleToolCall st fc (Except.ok t) ts).1.history).length ≤ 15 ∧
    (handleToolCall st fc (Except.ok t) ts).1.history =
      { id := toString ts, language := fc.language,
        code := jsOr t "// Synthesis failed", description := fc.description,
        timestamp := ts } :: st.history.take 14 := by
  rw [handleToolCall, if_pos hname]
  refine ⟨?_, rfl⟩
  exact List.length_take_le 15 _

/-- Witness for C10 at a concrete input. -/
theorem history_bounded_witness :
    ({ id := "id1", name := "generate_code", description := "add two numbers",
       language := "py" } : FunctionCall).name = "generate_code" ∧
    (((handleToolCall initialState
        { id := "id1", name := "generate_code",
          description := "add two numbers", language := "py" }
        (Except.ok (some "a+b")) 3).1.history).length ≤ 15 ∧
     (handleToolCall initialState
        { id := "id1", name := "generate_code",
          description := "add two numbers", language := "py" }
        (Except.ok (some "a+b")) 3).1.history =
      { id := toString 3, language := "py", code := jsOr (some "a+b") "// Synthesis failed",
        description := "add two numbers",
        timestamp := 3 } :: initialState.history.take 14) :=
  ⟨rfl, history_bounded initialState _ (some "a+b") 3 rfl⟩
